import Mathlib

/-!
# Verification development for the vda5050-types message model

Shallow embedding of the `vda5050-types` Rust crate (files `action.rs`,
`order.rs`, `common.rs`, `connection.rs`, `factsheet.rs`) together with the
serde/serde_json serialization semantics its derive attributes and its tests
rely on.

Conventions of the embedding:

* Machine integers are embedded at value level (unsigned widths as `Nat`,
  signed widths as `Int`), with Rust `as` casts translated to their
  value-level semantics (sign-extension and zero-extension are
  value-preserving; `u64 as i64` is a two's-complement reinterpretation,
  i.e. wrap by `2^64`).  Width bounds appear as explicit side conditions
  where a theorem needs them.
* IEEE-754 floats are represented by their bit fields (sign, biased exponent,
  fraction): `F32` and `F64`.  The codec under verification never performs
  float arithmetic; it only passes floats through, widens `f32` to `f64`
  (`value as f64`, which is exact), and — in serde_json's serializer — maps
  non-finite values to JSON `null`.  The `f64 → f32` narrowing used by
  serde_json when deserializing an `f32` field is modelled exactly on values
  that are exact images of `f32` (the only values this development applies it
  to); IEEE round-to-nearest on other values is not modelled.
* JSON documents are modelled as parsed trees (`Json`).  Number tokens are
  modelled the way serde_json's parser classifies them: an unsigned integral
  literal that fits `u64` (`JsonNum.uint`), a negative integral literal that
  fits `i64` (`JsonNum.int`), and every other numeric literal as the nearest
  `f64` (`JsonNum.float`).  Textual concerns below the token level (spelling
  of numbers, whitespace) are identified by this representation.
* serde_json rejects duplicate object keys; the model resolves a key by its
  first occurrence (`getField?`).  No claim depends on duplicate-key inputs.
* `Timestamp` is `chrono::DateTime<Utc>`; it is modelled by its RFC3339 wire
  string.  chrono's parse-time validation of that string is not modelled.
* serde_json's coercion of integral literals into `f32`/`f64` struct fields
  is not modelled (`decodeF32` only accepts float-classified tokens); no
  claim depends on it.
-/

namespace VDA

/-! ## Machine integers

Machine integers are embedded at value level: unsigned widths as `Nat`,
signed widths as `Int`.  A Rust value of type `uN`/`iN` always lies in the
width's range; where a theorem needs that fact it carries the range as an
explicit side condition (`i64Range`, `wireScalarSubset`, ...). -/

/-- Is an `Int` within the `i64` range (every Rust `i64` value is)? -/
def i64Range (i : Int) : Bool :=
  decide (-9223372036854775808 ≤ i) && decide (i < 9223372036854775808)

/-- Rust `i8 as i64` (sign extension: value preserving on the i8 range). -/
def i8_as_i64 (v : Int) : Int := v

/-- Rust `i16 as i64` (sign extension: value preserving). -/
def i16_as_i64 (v : Int) : Int := v

/-- Rust `i32 as i64` (sign extension: value preserving). -/
def i32_as_i64 (v : Int) : Int := v

/-- Rust `u8 as i64` (zero extension: value preserving). -/
def u8_as_i64 (v : Nat) : Int := v

/-- Rust `u16 as i64` (zero extension: value preserving). -/
def u16_as_i64 (v : Nat) : Int := v

/-- Rust `u32 as i64` (zero extension: value preserving). -/
def u32_as_i64 (v : Nat) : Int := v

/-- Rust `u64 as i64`: two's-complement reinterpretation of the 64-bit
pattern.  Values below `2^63` are preserved; values from `2^63` up to
`2^64 - 1` wrap to `v - 2^64` (negative). -/
def u64_as_i64 (v : Nat) : Int :=
  if v < 9223372036854775808 then (v : Int) else (v : Int) - 18446744073709551616

/-! ## IEEE-754 bit-field representation -/

/-- An `f32` bit pattern, split into its fields. -/
structure F32 where
  sign : Bool
  exp : Fin 256
  frac : Fin 8388608
deriving DecidableEq

/-- An `f64` bit pattern, split into its fields. -/
structure F64 where
  sign : Bool
  exp : Fin 2048
  frac : Fin 4503599627370496
deriving DecidableEq

/-- Rust `f32::is_finite`: the exponent field is not all ones. -/
def F32.isFinite (v : F32) : Bool := v.exp.val ≠ 255

/-- Rust `f64::is_finite`: the exponent field is not all ones. -/
def F64.isFinite (w : F64) : Bool := w.exp.val ≠ 2047

/-- Rust `f32 as f64`.  The cast is exact: normal numbers are rebiased
(`+896`) with the fraction shifted up by 29 bits, `f32` subnormals are
normalized into `f64` normal numbers, zeroes / infinities / NaNs map to their
`f64` counterparts. -/
def f32_as_f64 (v : F32) : F64 :=
  if v.exp.val = 255 then
    ⟨v.sign, ⟨2047, by omega⟩, ⟨v.frac.val * 536870912, by have h := v.frac.isLt; omega⟩⟩
  else if h0 : v.exp.val = 0 then
    if hf : v.frac.val = 0 then
      ⟨v.sign, ⟨0, by omega⟩, ⟨0, by omega⟩⟩
    else
      ⟨v.sign, ⟨Nat.log2 v.frac.val + 874, by
          have hk : Nat.log2 v.frac.val < 23 :=
            (Nat.log2_lt hf).mpr (by have h := v.frac.isLt; norm_num)
          omega⟩,
        ⟨(v.frac.val - 2 ^ Nat.log2 v.frac.val) * 2 ^ (52 - Nat.log2 v.frac.val), by
          have hk : Nat.log2 v.frac.val < 23 :=
            (Nat.log2_lt hf).mpr (by have h := v.frac.isLt; norm_num)
          have h1 : v.frac.val < 2 ^ (Nat.log2 v.frac.val + 1) := Nat.lt_log2_self
          have h2 : v.frac.val - 2 ^ Nat.log2 v.frac.val < 2 ^ Nat.log2 v.frac.val := by
            have := pow_succ 2 (Nat.log2 v.frac.val)
            omega
          calc (v.frac.val - 2 ^ Nat.log2 v.frac.val) * 2 ^ (52 - Nat.log2 v.frac.val)
              < 2 ^ Nat.log2 v.frac.val * 2 ^ (52 - Nat.log2 v.frac.val) :=
                (Nat.mul_lt_mul_right (Nat.pos_pow_of_pos _ (by norm_num))).mpr h2
            _ = 2 ^ 52 := by rw [← pow_add]; congr 1; omega
            _ = 4503599627370496 := by norm_num⟩⟩
  else
    ⟨v.sign, ⟨v.exp.val + 896, by have h := v.exp.isLt; omega⟩,
      ⟨v.frac.val * 536870912, by have h := v.frac.isLt; omega⟩⟩

/-- Rust `f64 as f32` narrowing, modelled exactly on `f64` values that are
exact images of an `f32` (fractions whose low 29 bits vanish, exponents in
the representable window).  Off that image the real cast rounds to nearest;
here it truncates — no claim exercises it there. -/
def f64_as_f32 (w : F64) : F32 :=
  if w.exp.val = 2047 then
    ⟨w.sign, ⟨255, by omega⟩, ⟨w.frac.val / 536870912, by have h := w.frac.isLt; omega⟩⟩
  else if h1151 : 1151 ≤ w.exp.val then
    ⟨w.sign, ⟨255, by omega⟩, ⟨0, by omega⟩⟩
  else if h897 : 897 ≤ w.exp.val then
    ⟨w.sign, ⟨w.exp.val - 896, by omega⟩,
      ⟨w.frac.val / 536870912, by have h := w.frac.isLt; omega⟩⟩
  else if h874 : 874 ≤ w.exp.val then
    ⟨w.sign, ⟨0, by omega⟩,
      ⟨2 ^ (w.exp.val - 874) + w.frac.val / 2 ^ (52 - (w.exp.val - 874)), by
        have hk : w.exp.val - 874 ≤ 22 := by omega
        have hp : 2 ^ (w.exp.val - 874) ≤ 2 ^ 22 :=
          Nat.pow_le_pow_right (by norm_num) hk
        have hd : w.frac.val / 2 ^ (52 - (w.exp.val - 874)) < 2 ^ (w.exp.val - 874) := by
          rw [Nat.div_lt_iff_lt_mul (Nat.pos_pow_of_pos _ (by norm_num)), ← pow_add]
          have h52 : w.exp.val - 874 + (52 - (w.exp.val - 874)) = 52 := by omega
          rw [h52]
          have h := w.frac.isLt
          norm_num
        have h22 : (2 : Nat) ^ 22 = 4194304 := by norm_num
        omega⟩⟩
  else
    ⟨w.sign, ⟨0, by omega⟩, ⟨0, by omega⟩⟩

/-! ## JSON documents, as parsed -/

/-- A JSON number token, classified the way serde_json's parser dispatches
it: an unsigned integral literal fitting `u64`, a negative integral literal
fitting `i64`, or any other numeric literal as the nearest `f64`. -/
inductive JsonNum where
  | uint (n : Nat)
  | int (i : Int)
  | float (v : F64)

/-- A parsed JSON document. -/
inductive Json where
  | null
  | bool (b : Bool)
  | num (n : JsonNum)
  | str (s : String)
  | arr (xs : List Json)
  | obj (fields : List (String × Json))

/-- First binding of `name` in an object's field list.  (serde additionally
rejects duplicate keys; the encoders of this development never produce
duplicates and no claim depends on duplicate-key inputs.) -/
def getField? : List (String × Json) → String → Option Json
  | [], _ => none
  | (k, v) :: rest, name => if k = name then some v else getField? rest name

/-- Field lookup on a JSON document. -/
def Json.lookup : Json → String → Option Json
  | .obj fields, name => getField? fields name
  | _, _ => none

/-- Decode-time failures, named after the spec's error vocabulary:
`invalidType` for a scalar of the wrong shape (serde's `invalid_type`),
`invalidEnumValue` for an unrecognized closed-enumeration token (serde's
`unknown_variant`), `missingField` for an absent required field. -/
inductive DecodeError where
  | invalidType (expected : String)
  | invalidEnumValue (got : String)
  | missingField (name : String)
deriving DecidableEq

deriving instance DecidableEq for Except

/-! ## `action.rs`: the tolerant value codec -/

/-- Source type `ActionParameterValue` (`action.rs`): the closed, untagged sum over the
five JSON scalar kinds. -/
inductive ActionParameterValue where
  | Null
  | Boolean (b : Bool)
  | Integer (i : Int)
  | Float (f : F64)
  | String (s : String)
deriving DecidableEq

/-- The scalar shapes the `deserialize_value` visitor can receive from a
deserializer: every `visit_*` method implemented in `action.rs`. -/
inductive WireScalar where
  | bool (b : Bool)
  | i8 (v : Int)
  | i16 (v : Int)
  | i32 (v : Int)
  | i64 (v : Int)
  | u8 (v : Nat)
  | u16 (v : Nat)
  | u32 (v : Nat)
  | u64 (v : Nat)
  | f32 (v : F32)
  | f64 (v : F64)
  | char (c : Char)
  | str (s : String)
  | unit

/-- Visitor method `visit_bool` (`action.rs:81`). -/
def visit_bool (value : Bool) : ActionParameterValue := .Boolean value

/-- Visitor method `visit_i64` (`action.rs:97`). -/
def visit_i64 (value : Int) : ActionParameterValue := .Integer value

/-- Visitor method `visit_i8` (`action.rs:85`): `self.visit_i64(value as i64)`. -/
def visit_i8 (value : Int) : ActionParameterValue := visit_i64 (i8_as_i64 value)

/-- Visitor method `visit_i16` (`action.rs:89`): `self.visit_i64(value as i64)`. -/
def visit_i16 (value : Int) : ActionParameterValue := visit_i64 (i16_as_i64 value)

/-- Visitor method `visit_i32` (`action.rs:93`): `self.visit_i64(value as i64)`. -/
def visit_i32 (value : Int) : ActionParameterValue := visit_i64 (i32_as_i64 value)

/-- Visitor method `visit_u8` (`action.rs:101`): `self.visit_i64(value as i64)`. -/
def visit_u8 (value : Nat) : ActionParameterValue := visit_i64 (u8_as_i64 value)

/-- Visitor method `visit_u16` (`action.rs:105`): `self.visit_i64(value as i64)`. -/
def visit_u16 (value : Nat) : ActionParameterValue := visit_i64 (u16_as_i64 value)

/-- Visitor method `visit_u32` (`action.rs:109`): `self.visit_i64(value as i64)`. -/
def visit_u32 (value : Nat) : ActionParameterValue := visit_i64 (u32_as_i64 value)

/-- Visitor method `visit_u64` (`action.rs:113`): `self.visit_i64(value as i64)` — note the
unchecked `as` cast. -/
def visit_u64 (value : Nat) : ActionParameterValue := visit_i64 (u64_as_i64 value)

/-- Visitor method `visit_f64` (`action.rs:121`). -/
def visit_f64 (value : F64) : ActionParameterValue := .Float value

/-- Visitor method `visit_f32` (`action.rs:117`): `self.visit_f64(value as f64)`. -/
def visit_f32 (value : F32) : ActionParameterValue := visit_f64 (f32_as_f64 value)

/-- Visitor method `visit_char` (`action.rs:125`): `String::from(value)`. -/
def visit_char (value : Char) : ActionParameterValue := .String (String.singleton value)

/-- Visitor method `visit_string` (`action.rs:137`). -/
def visit_string (value : String) : ActionParameterValue := .String value

/-- Visitor method `visit_str` (`action.rs:129`): `self.visit_string(value.to_owned())`. -/
def visit_str (value : String) : ActionParameterValue := visit_string value

/-- Visitor method `visit_unit` (`action.rs:141`). -/
def visit_unit : ActionParameterValue := .Null

/-- The visitor's total dispatch over every scalar shape it implements. -/
def visitScalar : WireScalar → ActionParameterValue
  | .bool b => visit_bool b
  | .i8 v => visit_i8 v
  | .i16 v => visit_i16 v
  | .i32 v => visit_i32 v
  | .i64 v => visit_i64 v
  | .u8 v => visit_u8 v
  | .u16 v => visit_u16 v
  | .u32 v => visit_u32 v
  | .u64 v => visit_u64 v
  | .f32 v => visit_f32 v
  | .f64 v => visit_f64 v
  | .char c => visit_char c
  | .str s => visit_str s
  | .unit => visit_unit

/-- How serde_json's `deserialize_any` drives the visitor for each parsed
JSON value: `null → visit_unit`, `bool → visit_bool`, unsigned integral
literal → `visit_u64`, negative integral literal → `visit_i64`, other
numeric literal → `visit_f64`, string → `visit_str`.  Arrays and objects
have no matching `visit_*` method in `deserialize_value`'s visitor. -/
def jsonScalarToWire? : Json → Option WireScalar
  | .null => some .unit
  | .bool b => some (.bool b)
  | .num (.uint n) => some (.u64 n)
  | .num (.int i) => some (.i64 i)
  | .num (.float v) => some (.f64 v)
  | .str s => some (.str s)
  | .arr _ => none
  | .obj _ => none

/-- The function `deserialize_value` (`action.rs:67-147`) composed with serde_json's
scalar dispatch: decode a parsed JSON value into an `ActionParameterValue`.
The error message is the visitor's `expecting` string. -/
def deserialize_value (j : Json) : Except DecodeError ActionParameterValue :=
  match jsonScalarToWire? j with
  | some w => .ok (visitScalar w)
  | none => .error (.invalidType "null, boolean, integer, float, string")

/-- The derived `Serialize` for `ActionParameterValue` (untagged), composed
with serde_json's scalar writers: each variant serializes as its natural
JSON scalar.  serde_json writes a non-finite `f64` as `null`. -/
def serialize_value : ActionParameterValue → Json
  | .Null => .null
  | .Boolean b => .bool b
  | .Integer i =>
    if i < 0 then .num (.int i) else .num (.uint i.toNat)
  | .Float f => if f.isFinite then .num (.float f) else .null
  | .String s => .str s

/-- Does an `ActionParameterValue`'s payload avoid the non-finite floats
(which JSON cannot represent as numbers)? -/
def ActionParameterValue.finiteFloat : ActionParameterValue → Bool
  | .Float f => f.isFinite
  | _ => true

/-- Is a value constructible in the Rust type, i.e. is an `Integer` payload
within the `i64` range (the Rust `i64` field makes this automatic)? -/
def ActionParameterValue.rustRange : ActionParameterValue → Bool
  | .Integer i => i64Range i
  | _ => true

/-- The JSON scalar subset `bool / ±int64 / float64 / string / null`: every
scalar a conforming wire can carry for an action-parameter value.  (All
floats produced by parsing JSON text are finite.) -/
def wireScalarSubset : Json → Bool
  | .null => true
  | .bool _ => true
  | .num (.uint n) => decide (n < 9223372036854775808)
  | .num (.int i) => decide (-9223372036854775808 ≤ i) && decide (i < 0)
  | .num (.float v) => v.isFinite
  | .str _ => true
  | .arr _ => false
  | .obj _ => false

/-- Is a decode result an `Ok` carrying a `Float` variant? -/
def isFloatOk : Except DecodeError ActionParameterValue → Bool
  | .ok (.Float _) => true
  | _ => false

/-! ## Closed enumerations and their wire tokens -/

/-- Source type `BlockingType` (`action.rs:30-37`), serde
`rename_all = "SCREAMING_SNAKE_CASE"`. -/
inductive BlockingType where
  | None
  | Soft
  | Hard
deriving DecidableEq

/-- Rust identifier of each `BlockingType` variant. -/
def BlockingType.rustName : BlockingType → String
  | .None => "None"
  | .Soft => "Soft"
  | .Hard => "Hard"

/-- Wire token of each `BlockingType` variant, as generated by the serde
derive from `rename_all = "SCREAMING_SNAKE_CASE"`. -/
def BlockingType.wireToken : BlockingType → String
  | .None => "NONE"
  | .Soft => "SOFT"
  | .Hard => "HARD"

/-- Source type `OrientationType` (`order.rs:104-110`), serde
`rename_all = "SCREAMING_SNAKE_CASE"`; also carries `#[derive(Default)]`
with `Tangential` as the `#[default]` variant. -/
inductive OrientationType where
  | Global
  | Tangential
deriving DecidableEq

/-- Rust identifier of each `OrientationType` variant. -/
def OrientationType.rustName : OrientationType → String
  | .Global => "Global"
  | .Tangential => "Tangential"

/-- Wire token of each `OrientationType` variant. -/
def OrientationType.wireToken : OrientationType → String
  | .Global => "GLOBAL"
  | .Tangential => "TANGENTIAL"

/-- The `#[default]` variant of `OrientationType` (Rust `Default` derive;
never consulted by the serde decoder). -/
def OrientationType.rustDefault : OrientationType := .Tangential

/-- Source type `ConnectionState` (`connection.rs:31-38`), serde
`rename_all = "SCREAMING_SNAKE_CASE"`. -/
inductive ConnectionState where
  | Online
  | Offline
  | ConnectionBroken
deriving DecidableEq

/-- Rust identifier of each `ConnectionState` variant. -/
def ConnectionState.rustName : ConnectionState → String
  | .Online => "Online"
  | .Offline => "Offline"
  | .ConnectionBroken => "ConnectionBroken"

/-- Wire token of each `ConnectionState` variant. -/
def ConnectionState.wireToken : ConnectionState → String
  | .Online => "ONLINE"
  | .Offline => "OFFLINE"
  | .ConnectionBroken => "CONNECTION_BROKEN"

/-- Source type `AgvClass` (`factsheet.rs:80-85`), serde
`rename_all = "SCREAMING_SNAKE_CASE"`. -/
inductive AgvClass where
  | Forklift
  | Conveyor
  | Tugger
  | Carrier
deriving DecidableEq

/-- Rust identifier of each `AgvClass` variant. -/
def AgvClass.rustName : AgvClass → String
  | .Forklift => "Forklift"
  | .Conveyor => "Conveyor"
  | .Tugger => "Tugger"
  | .Carrier => "Carrier"

/-- Wire token of each `AgvClass` variant. -/
def AgvClass.wireToken : AgvClass → String
  | .Forklift => "FORKLIFT"
  | .Conveyor => "CONVEYOR"
  | .Tugger => "TUGGER"
  | .Carrier => "CARRIER"

/-- Source type `AgvKinematic` (`factsheet.rs:67-72`), serde
`rename_all = "SCREAMING_SNAKE_CASE"` with an explicit override
`#[serde(rename = "THREEWHEEL")]` on `ThreeWheel`. -/
inductive AgvKinematic where
  | Diff
  | Omni
  | ThreeWheel
deriving DecidableEq

/-- Rust identifier of each `AgvKinematic` variant. -/
def AgvKinematic.rustName : AgvKinematic → String
  | .Diff => "Diff"
  | .Omni => "Omni"
  | .ThreeWheel => "ThreeWheel"

/-- Wire token of each `AgvKinematic` variant; `ThreeWheel` carries the
explicit `#[serde(rename = "THREEWHEEL")]` override from the source. -/
def AgvKinematic.wireToken : AgvKinematic → String
  | .Diff => "DIFF"
  | .Omni => "OMNI"
  | .ThreeWheel => "THREEWHEEL"

/-- Serializer of `BlockingType` (derived `Serialize` + rename). -/
def serialize_BlockingType (v : BlockingType) : Json := .str v.wireToken

/-- Deserializer of `BlockingType` (derived `Deserialize` + rename): exactly
the three renamed tokens are accepted; anything else is serde's
`unknown_variant` error, here `invalidEnumValue`. -/
def deserialize_BlockingType : Json → Except DecodeError BlockingType
  | .str s =>
    if s = "NONE" then .ok .None
    else if s = "SOFT" then .ok .Soft
    else if s = "HARD" then .ok .Hard
    else .error (.invalidEnumValue s)
  | _ => .error (.invalidType "variant identifier")

/-- Serializer of `OrientationType`. -/
def serialize_OrientationType (v : OrientationType) : Json := .str v.wireToken

/-- Deserializer of `OrientationType`: exactly the two renamed tokens. -/
def deserialize_OrientationType : Json → Except DecodeError OrientationType
  | .str s =>
    if s = "GLOBAL" then .ok .Global
    else if s = "TANGENTIAL" then .ok .Tangential
    else .error (.invalidEnumValue s)
  | _ => .error (.invalidType "variant identifier")

/-- Serializer of `ConnectionState`. -/
def serialize_ConnectionState (v : ConnectionState) : Json := .str v.wireToken

/-- Deserializer of `ConnectionState`: exactly the three renamed tokens. -/
def deserialize_ConnectionState : Json → Except DecodeError ConnectionState
  | .str s =>
    if s = "ONLINE" then .ok .Online
    else if s = "OFFLINE" then .ok .Offline
    else if s = "CONNECTION_BROKEN" then .ok .ConnectionBroken
    else .error (.invalidEnumValue s)
  | _ => .error (.invalidType "variant identifier")

/-- Serializer of `AgvClass`. -/
def serialize_AgvClass (v : AgvClass) : Json := .str v.wireToken

/-- Deserializer of `AgvClass`: exactly the four renamed tokens. -/
def deserialize_AgvClass : Json → Except DecodeError AgvClass
  | .str s =>
    if s = "FORKLIFT" then .ok .Forklift
    else if s = "CONVEYOR" then .ok .Conveyor
    else if s = "TUGGER" then .ok .Tugger
    else if s = "CARRIER" then .ok .Carrier
    else .error (.invalidEnumValue s)
  | _ => .error (.invalidType "variant identifier")

/-! ## serde's case transforms -/

/-- Character-level engine of serde's snake_case → camelCase rename: drop
each underscore and capitalize the letter that follows it. -/
def camelChars : List Char → Bool → List Char
  | [], _ => []
  | c :: rest, cap =>
    if c = '_' then camelChars rest true
    else (if cap then c.toUpper else c) :: camelChars rest false

/-- serde's fixed snake_case → lowerCamelCase transform
(`rename_all = "camelCase"` applied to a Rust field name). -/
def camelCaseStr (s : String) : String := ⟨camelChars s.data false⟩

/-- Character-level engine of serde's PascalCase → SCREAMING_SNAKE_CASE
rename: insert an underscore before every uppercase letter except the
first character, then uppercase everything. -/
def screamingChars : List Char → Bool → List Char
  | [], _ => []
  | c :: rest, first =>
    (if c.isUpper ∧ ¬first then ['_', c.toUpper] else [c.toUpper]) ++ screamingChars rest false

/-- serde's fixed PascalCase → SCREAMING_SNAKE_CASE transform
(`rename_all = "SCREAMING_SNAKE_CASE"` applied to a Rust variant name). -/
def screamingSnakeCaseStr (s : String) : String := ⟨screamingChars s.data true⟩

/-- Keys of a JSON object, in emission order. -/
def Json.keys : Json → List String
  | .obj fields => fields.map Prod.fst
  | _ => []

/-- Is a JSON value the `null` literal? -/
def Json.isNull : Json → Bool
  | .null => true
  | _ => false

/-- Internal (snake_case) field names of `Action` (`action.rs:11-22`), in
declaration order. -/
def actionFieldNames : List String :=
  ["action_type", "action_id", "action_description", "blocking_type", "action_parameters"]

/-- Internal (snake_case) field names of `Order` (`order.rs:13-34`), in
declaration order. -/
def orderFieldNames : List String :=
  ["header_id", "timestamp", "version", "manufacturer", "serial_number",
   "order_id", "order_update_id", "zone_set_id", "nodes", "edges"]

/-- Internal field names of `MaxArrayLens` (`factsheet.rs:181-230`) paired
with the explicit `#[serde(rename = "...")]` wire names the source gives
them (dotted names, not the camelCase transform). -/
def maxArrayLensRenames : List (String × String) :=
  [("order_nodes", "order.nodes"), ("order_edges", "order.edges"),
   ("node_actions", "node.actions"), ("edge_actions", "edge.actions"),
   ("actions_actions_parameters", "actions.actionsParameters"),
   ("instant_actions", "instantActions"),
   ("trajectory_knot_vector", "trajectory.knotVector"),
   ("trajectory_control_points", "trajectory.controlPoints"),
   ("state_node_states", "state.nodeStates"), ("state_edge_states", "state.edgeStates"),
   ("state_loads", "state.loads"), ("state_action_states", "state.actionStates"),
   ("state_errors", "state.errors"), ("state_information", "state.information"),
   ("error_error_references", "error.errorReferences"),
   ("information_info_references", "information.infoReferences")]

/-- Internal field name and explicit wire rename of
`WheelDefinition::wheel_type` (`factsheet.rs:371-372`). -/
def wheelTypeRename : String × String := ("wheel_type", "type")

/-! ## Primitive field codecs (serde_json semantics) -/

/-- Decoder for a `bool` field. -/
def decodeBool : Json → Except DecodeError Bool
  | .bool b => .ok b
  | _ => .error (.invalidType "boolean")

/-- Decoder for a `String` field. -/
def decodeString : Json → Except DecodeError String
  | .str s => .ok s
  | _ => .error (.invalidType "string")

/-- Decoder for a `u64` field: only an unsigned integral literal fits. -/
def decodeU64 : Json → Except DecodeError Nat
  | .num (.uint n) => .ok n
  | _ => .error (.invalidType "u64")

/-- Decoder for an `i64` field: an unsigned integral literal up to
`i64::MAX`, or a negative integral literal. -/
def decodeI64 : Json → Except DecodeError Int
  | .num (.uint n) =>
    if n < 9223372036854775808 then .ok (n : Int)
    else .error (.invalidType "i64")
  | .num (.int i) => .ok i
  | _ => .error (.invalidType "i64")

/-- Decoder for an `f32` field: a float-classified token, narrowed by
`as f32` (exact on the values this development feeds it; serde_json's
acceptance of integral literals for float fields is not modelled). -/
def decodeF32 : Json → Except DecodeError F32
  | .num (.float w) => .ok (f64_as_f32 w)
  | _ => .error (.invalidType "f32")

/-- Serializer for an `f32` field: serde_json writes a finite float's
shortest decimal form (token-level: the float itself, widened) and `null`
for a non-finite value. -/
def serialize_f32 (v : F32) : Json :=
  if v.isFinite then .num (.float (f32_as_f64 v)) else .null

/-- Serializer for a `u64` field. -/
def serialize_u64 (n : Nat) : Json := .num (.uint n)

/-- Serializer for an `i64` field. -/
def serialize_i64 (i : Int) : Json :=
  if i < 0 then .num (.int i) else .num (.uint i.toNat)

/-- A `chrono::DateTime<Utc>` timestamp, modelled by its RFC3339 wire
string (chrono's parse-time validation of the string is not modelled). -/
structure Timestamp where
  rfc3339 : String
deriving DecidableEq

/-- Serializer for a `Timestamp`. -/
def serialize_Timestamp (t : Timestamp) : Json := .str t.rfc3339

/-- Decoder for a `Timestamp` field. -/
def decodeTimestamp : Json → Except DecodeError Timestamp
  | .str s => .ok ⟨s⟩
  | _ => .error (.invalidType "RFC3339 timestamp string")

/-- Required-field access: serde's derived deserializer errors with
`missing_field` when a non-`Option` field has no binding. -/
def decodeField (fields : List (String × Json)) (name : String)
    (dec : Json → Except DecodeError α) : Except DecodeError α :=
  match getField? fields name with
  | some j => dec j
  | none => .error (.missingField name)

/-- `Option<T>` semantics of the serde derive: a missing binding and an
explicit `null` both give `None`; any other value is delegated to `T`. -/
def decodeOptJson (dec : Json → Except DecodeError α) :
    Option Json → Except DecodeError (Option α)
  | none => .ok none
  | some j => if j.isNull then .ok none else Except.map some (dec j)

/-- Optional-field access (see `decodeOptJson`). -/
def decodeOptField (fields : List (String × Json)) (name : String)
    (dec : Json → Except DecodeError α) : Except DecodeError (Option α) :=
  decodeOptJson dec (getField? fields name)

/-- `Vec<T>` decoding: an array, elementwise. -/
def decodeList (dec : Json → Except DecodeError α) : Json → Except DecodeError (List α)
  | .arr xs => xs.mapM dec
  | _ => .error (.invalidType "array")

/-- `Option<T>` encoding: the serde derive (without `skip_serializing_if`)
always emits the key, writing `null` for `None`. -/
def encodeOpt (enc : α → Json) : Option α → Json
  | none => .null
  | some v => enc v

/-! ## `action.rs` / `common.rs` / `order.rs`: the data model -/

/-- Source type `ActionParameter` (`action.rs:45-51`). -/
structure ActionParameter where
  key : String
  value : ActionParameterValue
deriving DecidableEq

/-- Source type `Action` (`action.rs:11-22`). -/
structure Action where
  action_type : String
  action_id : String
  action_description : Option String
  blocking_type : BlockingType
  action_parameters : List ActionParameter
deriving DecidableEq

/-- Source type `ControlPoint` (`common.rs:56-65`). -/
structure ControlPoint where
  x : F32
  y : F32
  weight : Option F32
  orientation : Option F32
deriving DecidableEq

/-- Source type `Trajectory` (`common.rs:115-122`). -/
structure Trajectory where
  degree : Int
  knot_vector : List F32
  control_points : List ControlPoint
deriving DecidableEq

/-- Source type `NodePosition` (`common.rs:88-107`). -/
structure NodePosition where
  x : F32
  y : F32
  theta : Option F32
  allowed_deviation_xy : Option F32
  allowed_deviation_theta : Option F32
  map_id : String
  map_description : Option String
deriving DecidableEq

/-- Source type `Node` (`order.rs:41-54`). -/
structure Node where
  node_id : String
  sequence_id : Nat
  node_description : Option String
  released : Bool
  node_position : Option NodePosition
  actions : List Action
deriving DecidableEq

/-- Source type `Edge` (`order.rs:61-96`). -/
structure Edge where
  edge_id : String
  sequence_id : Nat
  edge_description : Option String
  released : Bool
  start_node_id : String
  end_node_id : String
  max_speed : Option F32
  max_height : Option F32
  min_height : Option F32
  orientation : Option F32
  orientation_type : Option OrientationType
  direction : Option String
  rotation_allowed : Option Bool
  max_rotation_speed : Option F32
  length : Option F32
  trajectory : Option Trajectory
  actions : List Action
deriving DecidableEq

/-- Source type `Order` (`order.rs:13-34`): the message envelope fields
followed by the order payload. -/
structure Order where
  header_id : Nat
  timestamp : Timestamp
  version : String
  manufacturer : String
  serial_number : String
  order_id : String
  order_update_id : Nat
  zone_set_id : Option String
  nodes : List Node
  edges : List Edge
deriving DecidableEq

/-! ## Derived serializers (serde `rename_all = "camelCase"`, all keys
always emitted, declaration order) -/

/-- Derived `Serialize` for `ActionParameter`. -/
def serialize_ActionParameter (p : ActionParameter) : Json :=
  .obj [("key", .str p.key), ("value", serialize_value p.value)]

/-- Derived `Serialize` for `Action`. -/
def serialize_Action (a : Action) : Json :=
  .obj [("actionType", .str a.action_type),
        ("actionId", .str a.action_id),
        ("actionDescription", encodeOpt Json.str a.action_description),
        ("blockingType", serialize_BlockingType a.blocking_type),
        ("actionParameters", .arr (a.action_parameters.map serialize_ActionParameter))]

/-- Derived `Serialize` for `ControlPoint`. -/
def serialize_ControlPoint (c : ControlPoint) : Json :=
  .obj [("x", serialize_f32 c.x),
        ("y", serialize_f32 c.y),
        ("weight", encodeOpt serialize_f32 c.weight),
        ("orientation", encodeOpt serialize_f32 c.orientation)]

/-- Derived `Serialize` for `Trajectory`. -/
def serialize_Trajectory (t : Trajectory) : Json :=
  .obj [("degree", serialize_i64 t.degree),
        ("knotVector", .arr (t.knot_vector.map serialize_f32)),
        ("controlPoints", .arr (t.control_points.map serialize_ControlPoint))]

/-- Derived `Serialize` for `NodePosition`. -/
def serialize_NodePosition (p : NodePosition) : Json :=
  .obj [("x", serialize_f32 p.x),
        ("y", serialize_f32 p.y),
        ("theta", encodeOpt serialize_f32 p.theta),
        ("allowedDeviationXy", encodeOpt serialize_f32 p.allowed_deviation_xy),
        ("allowedDeviationTheta", encodeOpt serialize_f32 p.allowed_deviation_theta),
        ("mapId", .str p.map_id),
        ("mapDescription", encodeOpt Json.str p.map_description)]

/-- Derived `Serialize` for `Node`. -/
def serialize_Node (n : Node) : Json :=
  .obj [("nodeId", .str n.node_id),
        ("sequenceId", serialize_u64 n.sequence_id),
        ("nodeDescription", encodeOpt Json.str n.node_description),
        ("released", .bool n.released),
        ("nodePosition", encodeOpt serialize_NodePosition n.node_position),
        ("actions", .arr (n.actions.map serialize_Action))]

/-- Derived `Serialize` for `Edge`. -/
def serialize_Edge (e : Edge) : Json :=
  .obj [("edgeId", .str e.edge_id),
        ("sequenceId", serialize_u64 e.sequence_id),
        ("edgeDescription", encodeOpt Json.str e.edge_description),
        ("released", .bool e.released),
        ("startNodeId", .str e.start_node_id),
        ("endNodeId", .str e.end_node_id),
        ("maxSpeed", encodeOpt serialize_f32 e.max_speed),
        ("maxHeight", encodeOpt serialize_f32 e.max_height),
        ("minHeight", encodeOpt serialize_f32 e.min_height),
        ("orientation", encodeOpt serialize_f32 e.orientation),
        ("orientationType", encodeOpt serialize_OrientationType e.orientation_type),
        ("direction", encodeOpt Json.str e.direction),
        ("rotationAllowed", encodeOpt Json.bool e.rotation_allowed),
        ("maxRotationSpeed", encodeOpt serialize_f32 e.max_rotation_speed),
        ("length", encodeOpt serialize_f32 e.length),
        ("trajectory", encodeOpt serialize_Trajectory e.trajectory),
        ("actions", .arr (e.actions.map serialize_Action))]

/-- Derived `Serialize` for `Order`. -/
def serialize_Order (o : Order) : Json :=
  .obj [("headerId", serialize_u64 o.header_id),
        ("timestamp", serialize_Timestamp o.timestamp),
        ("version", .str o.version),
        ("manufacturer", .str o.manufacturer),
        ("serialNumber", .str o.serial_number),
        ("orderId", .str o.order_id),
        ("orderUpdateId", serialize_u64 o.order_update_id),
        ("zoneSetId", encodeOpt Json.str o.zone_set_id),
        ("nodes", .arr (o.nodes.map serialize_Node)),
        ("edges", .arr (o.edges.map serialize_Edge))]

/-! ## Derived deserializers -/

/-- Derived `Deserialize` for `ActionParameter`, with the `value` field
routed through `deserialize_value` (`#[serde(deserialize_with)]`).  `value`
is not an `Option` and has no default: an absent binding is a
`missing_field` error. -/
def deserialize_ActionParameter : Json → Except DecodeError ActionParameter
  | .obj fields => do
    let key ← decodeField fields "key" decodeString
    let value ← decodeField fields "value" deserialize_value
    .ok ⟨key, value⟩
  | _ => .error (.invalidType "struct ActionParameter")

/-- Derived `Deserialize` for `Action`. -/
def deserialize_Action : Json → Except DecodeError Action
  | .obj fields => do
    let action_type ← decodeField fields "actionType" decodeString
    let action_id ← decodeField fields "actionId" decodeString
    let action_description ← decodeOptField fields "actionDescription" decodeString
    let blocking_type ← decodeField fields "blockingType" deserialize_BlockingType
    let action_parameters ← decodeField fields "actionParameters"
      (decodeList deserialize_ActionParameter)
    .ok ⟨action_type, action_id, action_description, blocking_type, action_parameters⟩
  | _ => .error (.invalidType "struct Action")

/-- Derived `Deserialize` for `ControlPoint`. -/
def deserialize_ControlPoint : Json → Except DecodeError ControlPoint
  | .obj fields => do
    let x ← decodeField fields "x" decodeF32
    let y ← decodeField fields "y" decodeF32
    let weight ← decodeOptField fields "weight" decodeF32
    let orientation ← decodeOptField fields "orientation" decodeF32
    .ok ⟨x, y, weight, orientation⟩
  | _ => .error (.invalidType "struct ControlPoint")

/-- Derived `Deserialize` for `Trajectory`. -/
def deserialize_Trajectory : Json → Except DecodeError Trajectory
  | .obj fields => do
    let degree ← decodeField fields "degree" decodeI64
    let knot_vector ← decodeField fields "knotVector" (decodeList decodeF32)
    let control_points ← decodeField fields "controlPoints"
      (decodeList deserialize_ControlPoint)
    .ok ⟨degree, knot_vector, control_points⟩
  | _ => .error (.invalidType "struct Trajectory")

/-- Derived `Deserialize` for `NodePosition`. -/
def deserialize_NodePosition : Json → Except DecodeError NodePosition
  | .obj fields => do
    let x ← decodeField fields "x" decodeF32
    let y ← decodeField fields "y" decodeF32
    let theta ← decodeOptField fields "theta" decodeF32
    let axy ← decodeOptField fields "allowedDeviationXy" decodeF32
    let ath ← decodeOptField fields "allowedDeviationTheta" decodeF32
    let map_id ← decodeField fields "mapId" decodeString
    let map_description ← decodeOptField fields "mapDescription" decodeString
    .ok ⟨x, y, theta, axy, ath, map_id, map_description⟩
  | _ => .error (.invalidType "struct NodePosition")

/-- Derived `Deserialize` for `Node`. -/
def deserialize_Node : Json → Except DecodeError Node
  | .obj fields => do
    let node_id ← decodeField fields "nodeId" decodeString
    let sequence_id ← decodeField fields "sequenceId" decodeU64
    let node_description ← decodeOptField fields "nodeDescription" decodeString
    let released ← decodeField fields "released" decodeBool
    let node_position ← decodeOptField fields "nodePosition" deserialize_NodePosition
    let actions ← decodeField fields "actions" (decodeList deserialize_Action)
    .ok ⟨node_id, sequence_id, node_description, released, node_position, actions⟩
  | _ => .error (.invalidType "struct Node")

/-- Derived `Deserialize` for `Edge`. -/
def deserialize_Edge : Json → Except DecodeError Edge
  | .obj fields => do
    let edge_id ← decodeField fields "edgeId" decodeString
    let sequence_id ← decodeField fields "sequenceId" decodeU64
    let edge_description ← decodeOptField fields "edgeDescription" decodeString
    let released ← decodeField fields "released" decodeBool
    let start_node_id ← decodeField fields "startNodeId" decodeString
    let end_node_id ← decodeField fields "endNodeId" decodeString
    let max_speed ← decodeOptField fields "maxSpeed" decodeF32
    let max_height ← decodeOptField fields "maxHeight" decodeF32
    let min_height ← decodeOptField fields "minHeight" decodeF32
    let orientation ← decodeOptField fields "orientation" decodeF32
    let orientation_type ← decodeOptField fields "orientationType" deserialize_OrientationType
    let direction ← decodeOptField fields "direction" decodeString
    let rotation_allowed ← decodeOptField fields "rotationAllowed" decodeBool
    let max_rotation_speed ← decodeOptField fields "maxRotationSpeed" decodeF32
    let length ← decodeOptField fields "length" decodeF32
    let trajectory ← decodeOptField fields "trajectory" deserialize_Trajectory
    let actions ← decodeField fields "actions" (decodeList deserialize_Action)
    .ok ⟨edge_id, sequence_id, edge_description, released, start_node_id, end_node_id,
         max_speed, max_height, min_height, orientation, orientation_type, direction,
         rotation_allowed, max_rotation_speed, length, trajectory, actions⟩
  | _ => .error (.invalidType "struct Edge")

/-- Derived `Deserialize` for `Order`.  Note: no cross-field or
graph-invariant checking occurs anywhere in it — each field is decoded by
shape alone. -/
def deserialize_Order : Json → Except DecodeError Order
  | .obj fields => do
    let header_id ← decodeField fields "headerId" decodeU64
    let timestamp ← decodeField fields "timestamp" decodeTimestamp
    let version ← decodeField fields "version" decodeString
    let manufacturer ← decodeField fields "manufacturer" decodeString
    let serial_number ← decodeField fields "serialNumber" decodeString
    let order_id ← decodeField fields "orderId" decodeString
    let order_update_id ← decodeField fields "orderUpdateId" decodeU64
    let zone_set_id ← decodeOptField fields "zoneSetId" decodeString
    let nodes ← decodeField fields "nodes" (decodeList deserialize_Node)
    let edges ← decodeField fields "edges" (decodeList deserialize_Edge)
    .ok ⟨header_id, timestamp, version, manufacturer, serial_number, order_id,
         order_update_id, zone_set_id, nodes, edges⟩
  | _ => .error (.invalidType "struct Order")

/-! ## Finiteness side conditions

JSON has no tokens for NaN or the infinities, and serde_json writes a
non-finite float as `null`; the canonical-form round-trip therefore only
holds for messages whose float payloads are finite.  These predicates state
that condition. -/

/-- Optional-float finiteness. -/
def optF32Finite : Option F32 → Bool
  | none => true
  | some v => v.isFinite

/-- Rust-representability condition over an `ActionParameter`: the value's
Integer payload lies in the `i64` range (automatic in Rust) and its float
payload, if any, is finite. -/
def ActionParameter.finite (p : ActionParameter) : Bool :=
  p.value.rustRange && p.value.finiteFloat

/-- Finiteness condition over `Action`. -/
def Action.finite (a : Action) : Bool := a.action_parameters.all ActionParameter.finite

/-- Finiteness condition over `ControlPoint`. -/
def ControlPoint.finite (c : ControlPoint) : Bool :=
  c.x.isFinite && c.y.isFinite && optF32Finite c.weight && optF32Finite c.orientation

/-- Finiteness condition over `Trajectory`. -/
def Trajectory.finite (t : Trajectory) : Bool :=
  i64Range t.degree &&
  t.knot_vector.all F32.isFinite && t.control_points.all ControlPoint.finite

/-- Finiteness condition over `NodePosition`. -/
def NodePosition.finite (p : NodePosition) : Bool :=
  p.x.isFinite && p.y.isFinite && optF32Finite p.theta &&
  optF32Finite p.allowed_deviation_xy && optF32Finite p.allowed_deviation_theta

/-- Finiteness condition over `Node`. -/
def Node.finite (n : Node) : Bool :=
  (match n.node_position with
   | none => true
   | some p => p.finite) && n.actions.all Action.finite

/-- Finiteness condition over `Edge`. -/
def Edge.finite (e : Edge) : Bool :=
  optF32Finite e.max_speed && optF32Finite e.max_height && optF32Finite e.min_height &&
  optF32Finite e.orientation && optF32Finite e.max_rotation_speed && optF32Finite e.length &&
  (match e.trajectory with
   | none => true
   | some t => t.finite) && e.actions.all Action.finite

/-- Finiteness condition over `Order`. -/
def Order.finite (o : Order) : Bool :=
  o.nodes.all Node.finite && o.edges.all Edge.finite

/-! ## Order-graph validation

The crate under `src/` contains only the data types; the validation
operation the spec contracts for the Order Graph Model does not appear
there.  It is modelled here from the spec alone. -/

/-- Modelled from the spec: the error kind `GraphInconsistency` of s7 —
"Edge references an unknown node_id, duplicate/non-monotonic sequence_id,
or a released element reverted to unreleased across an update."  The
validation operation is absent from `src/`. -/
inductive GraphError where
  | graphInconsistency (reason : String)
deriving DecidableEq

/-- Modelled from the spec: the node_id set an Edge may reference —
"a node_id present in the same order or in a node already acknowledged
from a prior update of the same order_id" (invariant (a), s3). -/
def knownNodeIds (order : Order) (prior : Option Order) : List String :=
  order.nodes.map Node.node_id ++
    (match prior with
     | some p => if p.order_id = order.order_id then p.nodes.map Node.node_id else []
     | none => [])

/-- Modelled from the spec: invariant (a) of s3 — every Edge's
start_node_id/end_node_id must reference a known node_id. -/
def checkEdgeEndpoints (order : Order) (prior : Option Order) : Except GraphError Unit :=
  if order.edges.all (fun e =>
      (knownNodeIds order prior).any (fun x => x == e.start_node_id) &&
      (knownNodeIds order prior).any (fun x => x == e.end_node_id))
  then .ok ()
  else .error (.graphInconsistency "edge references an unknown node_id")

/-- Modelled from the spec: invariant (b) of s3 — sequence_id values are
unique across the combined Node+Edge sequence and strictly increase along
the intended traversal order of each list. -/
def checkSequenceIds (order : Order) : Except GraphError Unit :=
  let nodeSeqs := order.nodes.map (fun n => n.sequence_id)
  let edgeSeqs := order.edges.map (fun e => e.sequence_id)
  if (nodeSeqs ++ edgeSeqs).Nodup ∧
      List.Chain' (· < ·) nodeSeqs ∧ List.Chain' (· < ·) edgeSeqs
  then .ok ()
  else .error (.graphInconsistency "duplicate or non-monotonic sequence_id")

/-- Modelled from the spec: the shape of invariant (c) of s3 — released
elements form a contiguous prefix, unreleased elements the suffix. -/
def releasedContiguous (flags : List Bool) : Bool :=
  (flags.dropWhile (fun b => b == true)).all (fun b => b == false)

/-- Modelled from the spec: invariant (c) of s3, applied to the node list
and the edge list of an order. -/
def checkReleaseContiguity (order : Order) : Except GraphError Unit :=
  if releasedContiguous (order.nodes.map Node.released) &&
      releasedContiguous (order.edges.map Edge.released)
  then .ok ()
  else .error (.graphInconsistency "released elements do not form a contiguous prefix")

/-- Modelled from the spec: invariant (d) of s3 — across successive updates
to the same order_id, previously released elements must not become
un-released or be removed. -/
def checkPriorReleased (order : Order) (prior : Option Order) : Except GraphError Unit :=
  match prior with
  | none => .ok ()
  | some p =>
    if p.order_id = order.order_id then
      if p.nodes.all (fun n => !n.released ||
            order.nodes.any (fun m =>
              m.node_id == n.node_id && m.sequence_id == n.sequence_id && m.released)) &&
          p.edges.all (fun e => !e.released ||
            order.edges.any (fun f =>
              f.edge_id == e.edge_id && f.sequence_id == e.sequence_id && f.released))
      then .ok ()
      else .error (.graphInconsistency "previously released element un-released or removed")
    else .ok ()

/-- Modelled from the spec: `validate(order, priorOrderSameId?) -> Ok | Error`
(s4.3), checking invariants (a)-(d) of s3 in order; every rejection is a
`GraphInconsistency`.  The operation is not present in `src/` (a types-only
crate); it is modelled from the spec's words. -/
def validate (order : Order) (prior : Option Order) : Except GraphError Unit := do
  checkEdgeEndpoints order prior
  checkSequenceIds order
  checkReleaseContiguity order
  checkPriorReleased order prior

/-! ## Concrete values used by witnesses and counterexamples -/

/-- A quiet-NaN `f64` bit pattern (exponent all ones, fraction `2^51`). -/
def nanF64 : F64 := ⟨false, ⟨2047, by norm_num⟩, ⟨2251799813685248, by norm_num⟩⟩

/-- The numeric literal `2^63 = 9223372036854775808`, which fits `u64` but
exceeds `i64::MAX`. -/
def twoPow63 : Nat := 9223372036854775808

/-- The `i64` value `-2^63`, the two's-complement wrap image of `2^63`. -/
def wrapOfTwoPow63 : Int := -9223372036854775808

/-- A fixed RFC3339 timestamp for the examples. -/
def exTimestamp : Timestamp := ⟨"2017-04-15T11:40:03.12Z"⟩

/-- Example node `A`, sequence_id 5, unreleased. -/
def exNodeA : Node := ⟨"A", 5, none, false, none, []⟩

/-- Example node `B` with a *duplicate* sequence_id 5, released — released
after unreleased, violating base/horizon contiguity. -/
def exNodeB : Node := ⟨"B", 5, none, true, none, []⟩

/-- Example edge whose start_node_id `ghost` matches no node in the order. -/
def exGhostEdge : Edge :=
  ⟨"E1", 7, none, true, "ghost", "A",
   none, none, none, none, none, none, none, none, none, none, []⟩

/-- An order that violates graph invariants (a), (b) and (c): duplicate
sequence_ids, a dangling edge endpoint, and released-after-unreleased. -/
def exBadOrder : Order :=
  ⟨1, exTimestamp, "2.0.0", "acme", "sn-001", "order-1",
   0, none, [exNodeA, exNodeB], [exGhostEdge]⟩

/-- The JSON document for `exBadOrder`, written out literally: all required
fields present with the right scalar shapes, optional fields explicit
`null`, and the three graph-invariant violations plainly visible. -/
def exBadOrderJson : Json :=
  .obj [("headerId", .num (.uint 1)),
        ("timestamp", .str "2017-04-15T11:40:03.12Z"),
        ("version", .str "2.0.0"),
        ("manufacturer", .str "acme"),
        ("serialNumber", .str "sn-001"),
        ("orderId", .str "order-1"),
        ("orderUpdateId", .num (.uint 0)),
        ("zoneSetId", .null),
        ("nodes", .arr
          [.obj [("nodeId", .str "A"),
                 ("sequenceId", .num (.uint 5)),
                 ("nodeDescription", .null),
                 ("released", .bool false),
                 ("nodePosition", .null),
                 ("actions", .arr [])],
           .obj [("nodeId", .str "B"),
                 ("sequenceId", .num (.uint 5)),
                 ("nodeDescription", .null),
                 ("released", .bool true),
                 ("nodePosition", .null),
                 ("actions", .arr [])]]),
        ("edges", .arr
          [.obj [("edgeId", .str "E1"),
                 ("sequenceId", .num (.uint 7)),
                 ("edgeDescription", .null),
                 ("released", .bool true),
                 ("startNodeId", .str "ghost"),
                 ("endNodeId", .str "A"),
                 ("maxSpeed", .null),
                 ("maxHeight", .null),
                 ("minHeight", .null),
                 ("orientation", .null),
                 ("orientationType", .null),
                 ("direction", .null),
                 ("rotationAllowed", .null),
                 ("maxRotationSpeed", .null),
                 ("length", .null),
                 ("trajectory", .null),
                 ("actions", .arr [])]])]

/-- An example action whose optional description is absent. -/
def exAction : Action := ⟨"beep", "act-1", none, .Hard, []⟩

/-! # Theorems -/

/-! ## The `f32 → f64 → f32` exactness of the widening cast -/

/-- The `f32 as f64` widening loses nothing: narrowing its result recovers
the original `f32` bit pattern exactly, for every `f32` (including NaNs,
infinities, zeroes and subnormals). -/
theorem f64_as_f32_f32_as_f64 (v : F32) : f64_as_f32 (f32_as_f64 v) = v := by
  rcases v with ⟨s, ⟨e, he⟩, ⟨f, hflt⟩⟩
  by_cases h255 : e = 255
  · subst h255
    simp only [f32_as_f64, f64_as_f32]
    norm_num [Fin.ext_iff]
  · by_cases h0 : e = 0
    · subst h0
      by_cases hf0 : f = 0
      · subst hf0
        simp only [f32_as_f64, f64_as_f32]
        norm_num
      · have hk : Nat.log2 f < 23 := (Nat.log2_lt hf0).mpr (by omega)
        have h2 : ¬(Nat.log2 f + 874 = 2047) := by omega
        have h3 : ¬(1151 ≤ Nat.log2 f + 874) := by omega
        have h4 : ¬(897 ≤ Nat.log2 f + 874) := by omega
        have h5 : 874 ≤ Nat.log2 f + 874 := by omega
        have h6 : Nat.log2 f + 874 - 874 = Nat.log2 f := by omega
        simp only [f32_as_f64, f64_as_f32]
        norm_num [hf0, h2, h3, h4, h5, h6, Fin.ext_iff]
        exact Nat.add_sub_cancel' (Nat.log2_self_le hf0)
    · have h2 : ¬(e + 896 = 2047) := by omega
      have h3 : ¬(1151 ≤ e + 896) := by omega
      have h4 : 897 ≤ e + 896 := by omega
      simp only [f32_as_f64, f64_as_f32]
      norm_num [h255, h0, h2, h3, h4, Fin.ext_iff]

/-! ## Round-trip of the tolerant value codec -/

/-- Decoding inverts encoding for every `ActionParameterValue` that Rust
can construct (Integer within the `i64` range) and whose float payload
(if any) is finite. -/
theorem deserialize_serialize_value (v : ActionParameterValue)
    (hr : v.rustRange = true) (h : v.finiteFloat = true) :
    deserialize_value (serialize_value v) = .ok v := by
  cases v with
  | Null => rfl
  | Boolean b => rfl
  | String s => rfl
  | Integer i =>
    have hi : -9223372036854775808 ≤ i ∧ i < 9223372036854775808 := by
      simpa [ActionParameterValue.rustRange, i64Range] using hr
    by_cases hneg : i < 0
    · simp [serialize_value, hneg, deserialize_value, jsonScalarToWire?, visitScalar, visit_i64]
    · simp only [serialize_value, if_neg hneg]
      simp only [deserialize_value, jsonScalarToWire?, visitScalar, visit_u64, visit_i64,
        u64_as_i64]
      rw [if_pos (by omega : i.toNat < 9223372036854775808)]
      simp only [Except.ok.injEq, ActionParameterValue.Integer.injEq]
      omega
  | Float f =>
    have hf : f.isFinite = true := by simpa [ActionParameterValue.finiteFloat] using h
    simp [serialize_value, hf, deserialize_value, jsonScalarToWire?, visitScalar, visit_f64]

/-- Encoding inverts decoding on the JSON scalar subset
bool / +int64 / -int64 / finite float64 / string / null. -/
theorem serialize_deserialize_scalar (j : Json) (h : wireScalarSubset j = true) :
    Except.map serialize_value (deserialize_value j) = .ok j := by
  cases j with
  | null => rfl
  | bool b => rfl
  | str s => rfl
  | num n =>
    cases n with
    | uint u =>
      have hu : u < 9223372036854775808 := by simpa [wireScalarSubset] using h
      simp only [deserialize_value, jsonScalarToWire?, visitScalar, visit_u64, visit_i64,
        u64_as_i64]
      rw [if_pos hu]
      simp only [Except.map, serialize_value]
      rw [if_neg (by omega : ¬((u : Int) < 0))]
      simp only [Json.num.injEq, JsonNum.uint.injEq, Except.ok.injEq]
      omega
    | int i =>
      have hi : -9223372036854775808 ≤ i ∧ i < 0 := by
        simpa [wireScalarSubset] using h
      simp only [deserialize_value, jsonScalarToWire?, visitScalar, visit_i64]
      simp only [Except.map, serialize_value]
      rw [if_pos hi.2]
    | float v =>
      have hf : v.isFinite = true := by simpa [wireScalarSubset] using h
      simp [deserialize_value, jsonScalarToWire?, visitScalar, visit_f64, Except.map,
        serialize_value, hf]
  | arr xs => simp [wireScalarSubset] at h
  | obj fields => simp [wireScalarSubset] at h

/-- C1.  Round-trip law of the tolerant value codec, as it actually holds
on the code: `decode(encode(v)) = v` for every value constructible in the
Rust type (Integer payload in the `i64` range, which the Rust type
enforces) whose float payload is finite — serde_json writes non-finite
floats as `null`, so those values come back as `Null`; and
`encode(decode(x)) = x` for every parsed scalar of the wire subset
bool / ±int64 / float64 / string / null (all floats parsed from JSON text
are finite; distinct spellings of one number are identified at the token
level). -/
theorem C1_value_codec_roundtrip :
    (∀ v : ActionParameterValue, v.rustRange = true → v.finiteFloat = true →
      deserialize_value (serialize_value v) = .ok v) ∧
    (∀ j : Json, wireScalarSubset j = true →
      Except.map serialize_value (deserialize_value j) = .ok j) :=
  ⟨deserialize_serialize_value, serialize_deserialize_scalar⟩

/-- Witness for C1 at concrete inputs: the string value `"left"` and the
parsed scalar `true`. -/
theorem C1_value_codec_roundtrip_witness :
    deserialize_value (serialize_value (.String "left")) = .ok (.String "left") ∧
    Except.map serialize_value (deserialize_value (.bool true)) = .ok (.bool true) :=
  ⟨C1_value_codec_roundtrip.1 (.String "left") (by decide) (by decide),
   C1_value_codec_roundtrip.2 (.bool true) (by decide)⟩

/-- Counterexample to C1 as stated: the constructible value `Float NaN`
does not round-trip — serde_json encodes it as `null`, which decodes to
`Null`. -/
theorem C1_value_codec_roundtrip_counterexample :
    deserialize_value (serialize_value (.Float nanF64)) = .ok .Null ∧
    ActionParameterValue.Null ≠ .Float nanF64 := by
  constructor
  · rfl
  · decide

/-- C2.  The code's actual behaviour at the failing input `2^63`: the
numeric literal `9223372036854775808` parses into `visit_u64`, whose
unchecked `value as i64` cast silently wraps it to the negative integer
`-9223372036854775808`.  No `Overflow` error exists anywhere in the
decoder. -/
theorem C2_u64_overflow_wraps :
    deserialize_value (.num (.uint twoPow63)) = .ok (.Integer wrapOfTwoPow63) := by decide

/-- C3 (amended).  Structural classification of every wire scalar the
visitor can receive: booleans map to `Boolean`; the signed widths and the
unsigned widths up to 32 bits map to `Integer` through their `as i64`
casts, which preserve the value exactly (at value level they are the
identity); `u64` maps to `Integer` through the two's-complement wrap
(values below `2^63` preserved, values from `2^63` upward wrapped by
`-2^64`); `f32` widens exactly (the narrowing recovers every bit pattern)
and `f64` passes through, both to `Float`; a char becomes a one-character
`String`; strings map to `String`; unit maps to `Null`. -/
theorem C3_classification :
    (∀ b, visitScalar (.bool b) = .Boolean b) ∧
    (∀ v : Int, visitScalar (.i8 v) = .Integer v ∧ visitScalar (.i16 v) = .Integer v ∧
      visitScalar (.i32 v) = .Integer v ∧ visitScalar (.i64 v) = .Integer v) ∧
    (∀ v : Nat, visitScalar (.u8 v) = .Integer (v : Int) ∧
      visitScalar (.u16 v) = .Integer (v : Int) ∧ visitScalar (.u32 v) = .Integer (v : Int)) ∧
    (∀ v : Nat, visitScalar (.u64 v) = .Integer (u64_as_i64 v) ∧
      (v < 9223372036854775808 → u64_as_i64 v = (v : Int)) ∧
      (9223372036854775808 ≤ v →
        u64_as_i64 v = (v : Int) - 18446744073709551616)) ∧
    (∀ v : F32, visitScalar (.f32 v) = .Float (f32_as_f64 v) ∧
      f64_as_f32 (f32_as_f64 v) = v) ∧
    (∀ v : F64, visitScalar (.f64 v) = .Float v) ∧
    (∀ c, visitScalar (.char c) = .String (String.singleton c)) ∧
    (∀ s, visitScalar (.str s) = .String s) ∧
    visitScalar .unit = .Null := by
  refine ⟨fun b => rfl, fun v => ⟨rfl, rfl, rfl, rfl⟩, fun v => ⟨rfl, rfl, rfl⟩,
    fun v => ⟨rfl, fun hlt => ?_, fun hge => ?_⟩,
    fun v => ⟨rfl, f64_as_f32_f32_as_f64 v⟩,
    fun v => rfl, fun c => rfl, fun s => rfl, rfl⟩
  · simp only [u64_as_i64]
    rw [if_pos hlt]
  · simp only [u64_as_i64]
    rw [if_neg (by omega)]

/-- Witness for C3 at concrete inputs: the `u64` wrap clause evaluated on
both sides of the boundary, `42` and `2^63`. -/
theorem C3_classification_witness :
    u64_as_i64 42 = (42 : Int) ∧
    u64_as_i64 twoPow63 = ((9223372036854775808 : Nat) : Int) - 18446744073709551616 :=
  ⟨(C3_classification.2.2.2.1 42).2.1 (by norm_num),
   (C3_classification.2.2.2.1 twoPow63).2.2 (by decide)⟩

/-- Counterexample to C3 as stated: the integral literal `2^63` does not
fit a signed 64-bit integer, so the claim requires classification as
`Float`; the code instead produces a (wrapped) `Integer`. -/
theorem C3_classification_counterexample :
    deserialize_value (.num (.uint twoPow63)) = .ok (.Integer wrapOfTwoPow63) ∧
    isFloatOk (deserialize_value (.num (.uint twoPow63))) = false := by
  constructor
  · decide
  · decide

/-! ## Canonical-form round-trip of the full message codecs -/

/-- Lists round-trip elementwise. -/
theorem mapM_map_ok {α : Type} (dec : Json → Except DecodeError α) (enc : α → Json) :
    ∀ (l : List α), (∀ x ∈ l, dec (enc x) = .ok x) → (l.map enc).mapM dec = .ok l := by
  intro l h
  induction l with
  | nil => rfl
  | cons a as ih =>
    simp only [List.map_cons, List.mapM_cons]
    rw [h a (by simp), ih (fun x hx => h x (by simp [hx]))]
    rfl

/-- Optional fields round-trip: `None` encodes as `null` and comes back as
`None`; `Some x` comes back as `Some x` provided the element codec
round-trips on `x` and the element encoder never emits `null`. -/
theorem decodeOptJson_round {α : Type} (dec : Json → Except DecodeError α) (enc : α → Json)
    (v : Option α)
    (h : ∀ x, v = some x → dec (enc x) = .ok x ∧ (enc x).isNull = false) :
    decodeOptJson dec (some (encodeOpt enc v)) = .ok v := by
  cases v with
  | none => rfl
  | some x =>
    obtain ⟨hd, hn⟩ := h x rfl
    simp [encodeOpt, decodeOptJson, hn, hd, Except.map]

/-- The `f32` field codec round-trips on finite values. -/
theorem decodeF32_serialize_f32 (v : F32) (h : v.isFinite = true) :
    decodeF32 (serialize_f32 v) = .ok v := by
  simp [serialize_f32, h, decodeF32, f64_as_f32_f32_as_f64]

/-- A finite `f32` never encodes as `null`. -/
theorem serialize_f32_not_null (v : F32) (h : v.isFinite = true) :
    (serialize_f32 v).isNull = false := by
  simp [serialize_f32, h, Json.isNull]

/-- The `i64` field codec round-trips on the `i64` range. -/
theorem decodeI64_serialize_i64 (i : Int) (h : i64Range i = true) :
    decodeI64 (serialize_i64 i) = .ok i := by
  have hi : -9223372036854775808 ≤ i ∧ i < 9223372036854775808 := by
    simpa [i64Range] using h
  by_cases hneg : i < 0
  · simp [serialize_i64, hneg, decodeI64]
  · simp only [serialize_i64, if_neg hneg, decodeI64]
    rw [if_pos (by omega : i.toNat < 9223372036854775808)]
    simp only [Except.ok.injEq]
    omega

/-- The `BlockingType` codec round-trips. -/
theorem rt_BlockingType (v : BlockingType) :
    deserialize_BlockingType (serialize_BlockingType v) = .ok v := by
  cases v <;> decide

/-- The `OrientationType` codec round-trips. -/
theorem rt_OrientationType (v : OrientationType) :
    deserialize_OrientationType (serialize_OrientationType v) = .ok v := by
  cases v <;> decide

/-- The `ActionParameter` codec round-trips on Rust-representable values. -/
theorem rt_ActionParameter (p : ActionParameter) (h : p.finite = true) :
    deserialize_ActionParameter (serialize_ActionParameter p) = .ok p := by
  rcases p with ⟨k, val⟩
  simp only [ActionParameter.finite, Bool.and_eq_true] at h
  simp +decide [serialize_ActionParameter, deserialize_ActionParameter, decodeField,
    getField?, decodeString, deserialize_serialize_value val h.1 h.2, Bind.bind, Except.bind]

/-- The `Action` codec round-trips on Rust-representable values. -/
theorem rt_Action (a : Action) (h : a.finite = true) :
    deserialize_Action (serialize_Action a) = .ok a := by
  rcases a with ⟨ty, id, desc, bt, params⟩
  simp only [Action.finite] at h
  have hparams : decodeList deserialize_ActionParameter
      (Json.arr (params.map serialize_ActionParameter)) = .ok params :=
    mapM_map_ok _ _ params (fun p hp => rt_ActionParameter p (List.all_eq_true.mp h p hp))
  have hdesc : decodeOptJson decodeString (some (encodeOpt Json.str desc)) = .ok desc :=
    decodeOptJson_round _ _ desc (fun x _ => ⟨rfl, rfl⟩)
  simp +decide [serialize_Action, deserialize_Action, decodeField, decodeOptField,
    getField?, decodeString, rt_BlockingType, hparams, hdesc,
    Bind.bind, Except.bind]

/-- The `ControlPoint` codec round-trips on finite values. -/
theorem rt_ControlPoint (c : ControlPoint) (h : c.finite = true) :
    deserialize_ControlPoint (serialize_ControlPoint c) = .ok c := by
  rcases c with ⟨x, y, w, o⟩
  simp only [ControlPoint.finite, Bool.and_eq_true] at h
  obtain ⟨⟨⟨hx, hy⟩, hw⟩, ho⟩ := h
  have hw' : decodeOptJson decodeF32 (some (encodeOpt serialize_f32 w)) = .ok w :=
    decodeOptJson_round _ _ w (fun z hz => by
      subst hz
      simp only [optF32Finite] at hw
      exact ⟨decodeF32_serialize_f32 z hw, serialize_f32_not_null z hw⟩)
  have ho' : decodeOptJson decodeF32 (some (encodeOpt serialize_f32 o)) = .ok o :=
    decodeOptJson_round _ _ o (fun z hz => by
      subst hz
      simp only [optF32Finite] at ho
      exact ⟨decodeF32_serialize_f32 z ho, serialize_f32_not_null z ho⟩)
  simp +decide [serialize_ControlPoint, deserialize_ControlPoint, decodeField,
    decodeOptField, getField?, decodeF32_serialize_f32 x hx, decodeF32_serialize_f32 y hy,
    hw', ho', Bind.bind, Except.bind]

/-- Optional `f32` fields round-trip when finite. -/
theorem optF32_round (w : Option F32) (hw : optF32Finite w = true) :
    decodeOptJson decodeF32 (some (encodeOpt serialize_f32 w)) = .ok w :=
  decodeOptJson_round _ _ w (fun z hz => by
    subst hz
    simp only [optF32Finite] at hw
    exact ⟨decodeF32_serialize_f32 z hw, serialize_f32_not_null z hw⟩)

/-- Optional `String` fields round-trip. -/
theorem optString_round (v : Option String) :
    decodeOptJson decodeString (some (encodeOpt Json.str v)) = .ok v :=
  decodeOptJson_round _ _ v (fun _ _ => ⟨rfl, rfl⟩)

/-- Optional `bool` fields round-trip. -/
theorem optBool_round (v : Option Bool) :
    decodeOptJson decodeBool (some (encodeOpt Json.bool v)) = .ok v :=
  decodeOptJson_round _ _ v (fun _ _ => ⟨rfl, rfl⟩)

/-- Optional `OrientationType` fields round-trip. -/
theorem optOrientationType_round (v : Option OrientationType) :
    decodeOptJson deserialize_OrientationType
      (some (encodeOpt serialize_OrientationType v)) = .ok v :=
  decodeOptJson_round _ _ v (fun x _ => ⟨rt_OrientationType x, rfl⟩)

/-- The `Trajectory` codec round-trips on Rust-representable values. -/
theorem rt_Trajectory (t : Trajectory) (h : t.finite = true) :
    deserialize_Trajectory (serialize_Trajectory t) = .ok t := by
  rcases t with ⟨deg, kv, cps⟩
  simp only [Trajectory.finite, Bool.and_eq_true] at h
  obtain ⟨⟨hdeg, hkv⟩, hcps⟩ := h
  have hkv' : decodeList decodeF32 (Json.arr (kv.map serialize_f32)) = .ok kv :=
    mapM_map_ok _ _ kv (fun x hx => decodeF32_serialize_f32 x (List.all_eq_true.mp hkv x hx))
  have hcps' : decodeList deserialize_ControlPoint
      (Json.arr (cps.map serialize_ControlPoint)) = .ok cps :=
    mapM_map_ok _ _ cps (fun c hc => rt_ControlPoint c (List.all_eq_true.mp hcps c hc))
  simp +decide [serialize_Trajectory, deserialize_Trajectory, decodeField, getField?,
    decodeI64_serialize_i64 deg hdeg, hkv', hcps', Bind.bind, Except.bind]

/-- The `NodePosition` codec round-trips on finite values. -/
theorem rt_NodePosition (p : NodePosition) (h : p.finite = true) :
    deserialize_NodePosition (serialize_NodePosition p) = .ok p := by
  rcases p with ⟨x, y, th, axy, ath, mid, md⟩
  simp only [NodePosition.finite, Bool.and_eq_true] at h
  obtain ⟨⟨⟨⟨hx, hy⟩, hth⟩, haxy⟩, hath⟩ := h
  simp +decide [serialize_NodePosition, deserialize_NodePosition, decodeField,
    decodeOptField, getField?, decodeString, decodeF32_serialize_f32 x hx,
    decodeF32_serialize_f32 y hy, optF32_round th hth, optF32_round axy haxy,
    optF32_round ath hath, optString_round, Bind.bind, Except.bind]

/-- The `Node` codec round-trips on Rust-representable values. -/
theorem rt_Node (n : Node) (h : n.finite = true) :
    deserialize_Node (serialize_Node n) = .ok n := by
  rcases n with ⟨nid, seq, nd, rel, np, acts⟩
  simp only [Node.finite, Bool.and_eq_true] at h
  obtain ⟨hnp, hacts⟩ := h
  have hnp' : decodeOptJson deserialize_NodePosition
      (some (encodeOpt serialize_NodePosition np)) = .ok np :=
    decodeOptJson_round _ _ np (fun p hp => by
      subst hp
      simp only at hnp
      exact ⟨rt_NodePosition p hnp, rfl⟩)
  have hacts' : decodeList deserialize_Action (Json.arr (acts.map serialize_Action)) = .ok acts :=
    mapM_map_ok _ _ acts (fun a ha => rt_Action a (List.all_eq_true.mp hacts a ha))
  simp +decide [serialize_Node, deserialize_Node, decodeField, decodeOptField, getField?,
    decodeString, decodeU64, serialize_u64, decodeBool, optString_round, hnp', hacts',
    Bind.bind, Except.bind]

/-- The `Edge` codec round-trips on Rust-representable values. -/
theorem rt_Edge (e : Edge) (h : e.finite = true) :
    deserialize_Edge (serialize_Edge e) = .ok e := by
  rcases e with ⟨eid, seq, ed, rel, sn, en, ms, mh, mnh, ori, ot, dir, ra, mrs, len, tr, acts⟩
  simp only [Edge.finite, Bool.and_eq_true] at h
  obtain ⟨⟨⟨⟨⟨⟨⟨hms, hmh⟩, hmnh⟩, hori⟩, hmrs⟩, hlen⟩, htr⟩, hacts⟩ := h
  have htr' : decodeOptJson deserialize_Trajectory
      (some (encodeOpt serialize_Trajectory tr)) = .ok tr :=
    decodeOptJson_round _ _ tr (fun t ht => by
      subst ht
      simp only at htr
      exact ⟨rt_Trajectory t htr, rfl⟩)
  have hacts' : decodeList deserialize_Action (Json.arr (acts.map serialize_Action)) = .ok acts :=
    mapM_map_ok _ _ acts (fun a ha => rt_Action a (List.all_eq_true.mp hacts a ha))
  simp +decide [serialize_Edge, deserialize_Edge, decodeField, decodeOptField, getField?,
    decodeString, decodeU64, serialize_u64, decodeBool, optString_round, optBool_round,
    optOrientationType_round, optF32_round ms hms, optF32_round mh hmh,
    optF32_round mnh hmnh, optF32_round ori hori, optF32_round mrs hmrs,
    optF32_round len hlen, htr', hacts', Bind.bind, Except.bind]

/-- The `Order` codec round-trips on Rust-representable values — with no
condition whatsoever on graph consistency. -/
theorem rt_Order (o : Order) (h : o.finite = true) :
    deserialize_Order (serialize_Order o) = .ok o := by
  rcases o with ⟨hid, ts, ver, man, sn, oid, ouid, zs, nodes, edges⟩
  simp only [Order.finite, Bool.and_eq_true] at h
  obtain ⟨hnodes, hedges⟩ := h
  have hnodes' : decodeList deserialize_Node (Json.arr (nodes.map serialize_Node)) = .ok nodes :=
    mapM_map_ok _ _ nodes (fun n hn => rt_Node n (List.all_eq_true.mp hnodes n hn))
  have hedges' : decodeList deserialize_Edge (Json.arr (edges.map serialize_Edge)) = .ok edges :=
    mapM_map_ok _ _ edges (fun e he => rt_Edge e (List.all_eq_true.mp hedges e he))
  simp +decide [serialize_Order, deserialize_Order, decodeField, decodeOptField, getField?,
    decodeString, decodeU64, serialize_u64, decodeTimestamp, serialize_Timestamp,
    optString_round, hnodes', hedges', Bind.bind, Except.bind]

/-- C9.  Decoding an `Order` enforces no cross-field or graph invariant:
the codec round-trips every Rust-representable `Order` value — including
ones with duplicate sequence_ids, dangling edge endpoints and released
elements after unreleased ones — and the concrete document
`exBadOrderJson`, which exhibits all three violations at once (duplicate
sequence_id 5, an edge starting at the unknown node `ghost`, and a
released node after an unreleased one), decodes successfully. -/
theorem C9_decode_no_graph_checks :
    (∀ o : Order, o.finite = true → deserialize_Order (serialize_Order o) = .ok o) ∧
    deserialize_Order exBadOrderJson = .ok exBadOrder ∧
    ¬(exBadOrder.nodes.map Node.sequence_id ++
        exBadOrder.edges.map Edge.sequence_id).Nodup ∧
    releasedContiguous (exBadOrder.nodes.map Node.released) = false ∧
    exGhostEdge ∈ exBadOrder.edges ∧
    exGhostEdge.start_node_id ∉ exBadOrder.nodes.map Node.node_id := by
  refine ⟨rt_Order, ?_, by decide, by decide, by decide, by decide⟩
  decide

/-- Witness for C9's universally quantified part at the concrete
invariant-violating order `exBadOrder`. -/
theorem C9_decode_no_graph_checks_witness :
    deserialize_Order (serialize_Order exBadOrder) = .ok exBadOrder :=
  C9_decode_no_graph_checks.1 exBadOrder (by decide)

/-- C10.  Optional fields absent in the model (`None`) are still emitted on
the wire, as an explicit `null` under their camelCase key: the serializers
carry no `skip_serializing_if`, so every key is always present. -/
theorem C10_none_encodes_explicit_null :
    (∀ o : Order, o.zone_set_id = none →
      (serialize_Order o).lookup "zoneSetId" = some .null) ∧
    (∀ a : Action, a.action_description = none →
      (serialize_Action a).lookup "actionDescription" = some .null) := by
  constructor
  · intro o h
    simp +decide [serialize_Order, Json.lookup, getField?, h, encodeOpt]
  · intro a h
    simp +decide [serialize_Action, Json.lookup, getField?, h, encodeOpt]

/-- Witness for C10 at the concrete order `exBadOrder` (zone_set_id absent)
and action `exAction` (description absent). -/
theorem C10_none_encodes_explicit_null_witness :
    (serialize_Order exBadOrder).lookup "zoneSetId" = some .null ∧
    (serialize_Action exAction).lookup "actionDescription" = some .null :=
  ⟨C10_none_encodes_explicit_null.1 exBadOrder rfl,
   C10_none_encodes_explicit_null.2 exAction rfl⟩

/-- C5 (amended).  An `ActionParameter` whose `value` is an explicit JSON
`null` decodes to `Null`; but a `value` binding that is altogether absent
is a `missing_field` decode error (the field is not an `Option` and has no
serde default), not `Null`. -/
theorem C5_null_value_decodes_Null :
    (∀ k : String, deserialize_ActionParameter (.obj [("key", .str k), ("value", .null)])
      = .ok ⟨k, .Null⟩) ∧
    (∀ k : String, deserialize_ActionParameter (.obj [("key", .str k)])
      = .error (.missingField "value")) := by
  constructor <;> intro k <;>
    simp +decide [deserialize_ActionParameter, decodeField, getField?, decodeString,
      deserialize_value, jsonScalarToWire?, visitScalar, visit_unit, Bind.bind, Except.bind]

/-- Counterexample to C5 as stated: decoding an `ActionParameter` object
with the `value` binding absent does not yield `Null`; it fails with a
missing-field error. -/
theorem C5_absent_value_is_error :
    deserialize_ActionParameter (.obj [("key", .str "duration")])
      = .error (.missingField "value") := by decide

/-- C4.  The (spec-modelled) validation operation rejects any order — under
any optional prior order — containing an edge whose start_node_id is not
among the known node ids, and the rejection is a `GraphInconsistency`. -/
theorem C4_validate_rejects_unknown_start (o : Order) (prior : Option Order) (e : Edge)
    (he : e ∈ o.edges) (hs : e.start_node_id ∉ knownNodeIds o prior) :
    validate o prior = .error (.graphInconsistency "edge references an unknown node_id") := by
  have hall : (o.edges.all (fun e =>
      (knownNodeIds o prior).any (fun x => x == e.start_node_id) &&
      (knownNodeIds o prior).any (fun x => x == e.end_node_id))) = false := by
    refine List.all_eq_false.mpr ⟨e, he, ?_⟩
    simp only [Bool.and_eq_true, List.any_eq_true, beq_iff_eq]
    rintro ⟨⟨x, hx, hxe⟩, -⟩
    exact hs (hxe ▸ hx)
  simp [validate, checkEdgeEndpoints, hall, Bind.bind, Except.bind]

/-- Witness for C4: the concrete order `exBadOrder`, whose edge starts at
the unknown node `ghost`, is rejected with `GraphInconsistency`. -/
theorem C4_validate_rejects_unknown_start_witness :
    validate exBadOrder none
      = .error (.graphInconsistency "edge references an unknown node_id") :=
  C4_validate_rejects_unknown_start exBadOrder none exGhostEdge (by decide) (by decide)

/-- C6.  For each closed enumeration, decoding any string other than the
enumeration's wire tokens is a hard decode failure (`invalidEnumValue`,
serde's unknown-variant error) — never a coercion to a default variant
(in particular `OrientationType`, despite its Rust `Default` derive). -/
theorem C6_unknown_enum_token_rejected :
    (∀ s : String, s ≠ "NONE" → s ≠ "SOFT" → s ≠ "HARD" →
      deserialize_BlockingType (.str s) = .error (.invalidEnumValue s)) ∧
    (∀ s : String, s ≠ "GLOBAL" → s ≠ "TANGENTIAL" →
      deserialize_OrientationType (.str s) = .error (.invalidEnumValue s)) ∧
    (∀ s : String, s ≠ "ONLINE" → s ≠ "OFFLINE" → s ≠ "CONNECTION_BROKEN" →
      deserialize_ConnectionState (.str s) = .error (.invalidEnumValue s)) := by
  refine ⟨fun s h1 h2 h3 => ?_, fun s h1 h2 => ?_, fun s h1 h2 h3 => ?_⟩
  · simp [deserialize_BlockingType, h1, h2, h3]
  · simp [deserialize_OrientationType, h1, h2]
  · simp [deserialize_ConnectionState, h1, h2, h3]

/-- Witness for C6 at the concrete unknown token `"MEDIUM"`. -/
theorem C6_unknown_enum_token_rejected_witness :
    deserialize_BlockingType (.str "MEDIUM") = .error (.invalidEnumValue "MEDIUM") ∧
    deserialize_OrientationType (.str "MEDIUM") = .error (.invalidEnumValue "MEDIUM") ∧
    deserialize_ConnectionState (.str "MEDIUM") = .error (.invalidEnumValue "MEDIUM") :=
  ⟨C6_unknown_enum_token_rejected.1 "MEDIUM" (by decide) (by decide) (by decide),
   C6_unknown_enum_token_rejected.2.1 "MEDIUM" (by decide) (by decide),
   C6_unknown_enum_token_rejected.2.2 "MEDIUM" (by decide) (by decide) (by decide)⟩

/-- C7 (amended).  Wire naming, except for explicit per-item renames: the
emitted keys of `Action` and `Order` objects are exactly the fixed
lowerCamelCase transform of the internal snake_case field names; the wire
tokens of `BlockingType`, `AgvClass`, `ConnectionState` and
`OrientationType` are exactly the SCREAMING_SNAKE_CASE transform of the
Rust variant names; and decoding accepts exactly the emitted tokens
(shown for `BlockingType` and `AgvClass`). -/
theorem C7_wire_naming :
    (∀ a : Action, (serialize_Action a).keys = actionFieldNames.map camelCaseStr) ∧
    (∀ o : Order, (serialize_Order o).keys = orderFieldNames.map camelCaseStr) ∧
    (∀ v : BlockingType, v.wireToken = screamingSnakeCaseStr v.rustName) ∧
    (∀ v : AgvClass, v.wireToken = screamingSnakeCaseStr v.rustName) ∧
    (∀ v : ConnectionState, v.wireToken = screamingSnakeCaseStr v.rustName) ∧
    (∀ v : OrientationType, v.wireToken = screamingSnakeCaseStr v.rustName) ∧
    (∀ (s : String) (v : BlockingType),
      deserialize_BlockingType (.str s) = .ok v ↔ s = v.wireToken) ∧
    (∀ (s : String) (v : AgvClass),
      deserialize_AgvClass (.str s) = .ok v ↔ s = v.wireToken) := by
  refine ⟨fun a => ?_, fun o => ?_, fun v => by cases v <;> decide,
    fun v => by cases v <;> decide, fun v => by cases v <;> decide,
    fun v => by cases v <;> decide, fun s v => ?_, fun s v => ?_⟩
  · simp only [serialize_Action, Json.keys, List.map_cons, List.map_nil]
    decide
  · simp only [serialize_Order, Json.keys, List.map_cons, List.map_nil]
    decide
  · constructor
    · intro h
      simp only [deserialize_BlockingType] at h
      split_ifs at h with p1 p2 p3 <;>
        simp_all [BlockingType.wireToken] <;> cases h <;> simp [BlockingType.wireToken]
    · intro h
      subst h
      exact rt_BlockingType v
  · constructor
    · intro h
      simp only [deserialize_AgvClass] at h
      split_ifs at h with p1 p2 p3 p4 <;>
        simp_all [AgvClass.wireToken] <;> cases h <;> simp [AgvClass.wireToken]
    · intro h
      subst h
      cases v <;> decide

/-- Counterexample to C7 as stated: `AgvKinematic::ThreeWheel` carries an
explicit serde rename and is emitted as `"THREEWHEEL"`, not the
SCREAMING_SNAKE_CASE transform `"THREE_WHEEL"`; likewise
`MaxArrayLens::order_nodes` is emitted as `"order.nodes"`, not the
camelCase transform `"orderNodes"`, and `WheelDefinition::wheel_type` as
`"type"`, not `"wheelType"`. -/
theorem C7_wire_naming_counterexample :
    AgvKinematic.wireToken .ThreeWheel = "THREEWHEEL" ∧
    screamingSnakeCaseStr (AgvKinematic.rustName .ThreeWheel) = "THREE_WHEEL" ∧
    AgvKinematic.wireToken .ThreeWheel
      ≠ screamingSnakeCaseStr (AgvKinematic.rustName .ThreeWheel) ∧
    maxArrayLensRenames.head? = some ("order_nodes", "order.nodes") ∧
    camelCaseStr "order_nodes" = "orderNodes" ∧
    ("order.nodes" : String) ≠ camelCaseStr "order_nodes" ∧
    wheelTypeRename = ("wheel_type", "type") ∧
    ("type" : String) ≠ camelCaseStr "wheel_type" := by
  refine ⟨rfl, by decide, by decide, rfl, by decide, by decide, rfl, by decide⟩

/-- C8.  The embedded codec operations are functions: two runs on equal
inputs give equal outputs, and decoding a batch of messages decomposes
pointwise — a failing message in the batch leaves every other message's
result exactly what it is when decoded alone. -/
theorem C8_codec_deterministic_isolated :
    (∀ j1 j2 : Json, j1 = j2 → deserialize_value j1 = deserialize_value j2) ∧
    (∀ v1 v2 : ActionParameterValue, v1 = v2 → serialize_value v1 = serialize_value v2) ∧
    (∀ (pre post : List Json) (j : Json),
      (pre ++ j :: post).map deserialize_value
        = pre.map deserialize_value
          ++ deserialize_value j :: post.map deserialize_value) := by
  refine ⟨fun j1 j2 h => h ▸ rfl, fun v1 v2 h => h ▸ rfl, fun pre post j => ?_⟩
  simp

/-- Witness for C8: both determinism conjuncts applied at concrete inputs
(a boolean scalar, a string value). -/
theorem C8_codec_deterministic_isolated_witness :
    deserialize_value (.bool true) = deserialize_value (.bool true) ∧
    serialize_value (.String "left") = serialize_value (.String "left") :=
  ⟨C8_codec_deterministic_isolated.1 (.bool true) (.bool true) rfl,
   C8_codec_deterministic_isolated.2.1 (.String "left") (.String "left") rfl⟩

/-- Witness for C5 at the concrete key `"direction"`. -/
theorem C5_null_value_decodes_Null_witness :
    deserialize_ActionParameter (.obj [("key", .str "direction"), ("value", .null)])
      = .ok ⟨"direction", .Null⟩ :=
  C5_null_value_decodes_Null.1 "direction"

/-- Witness for C7 at concrete inputs: the token `"HARD"` decodes to
`BlockingType.Hard`, whose token is the SCREAMING_SNAKE_CASE transform of
its Rust name. -/
theorem C7_wire_naming_witness :
    deserialize_BlockingType (.str "HARD") = .ok BlockingType.Hard ∧
    BlockingType.wireToken .Hard = screamingSnakeCaseStr (BlockingType.rustName .Hard) :=
  ⟨(C7_wire_naming.2.2.2.2.2.2.1 "HARD" .Hard).mpr (by decide),
   C7_wire_naming.2.2.1 .Hard⟩

end VDA
